import Mathlib

/-
A shallow embedding of the hive client driver (connection.go): session
open/close and statement execution over a thrift RPC transport.

The thrift transport and the generated `inf` types are external to the file
connection.go; each RPC's outcome (the response pointer and the Go error
value) is therefore passed to the embedded function as an explicit input,
and the RPC calls a function issues are returned as an explicit trace.
Go nil pointers are modelled as `Option`; a nil-pointer dereference is
modelled as a dedicated `panic` outcome constructor.
-/

set_option autoImplicit false

namespace Hive

/-- Modelled from the spec: the application status-code set of the generated
`inf` package (not under src/) — the two designated success codes and the
other enumerated codes of the full status-code set. -/
inductive TStatusCode where
  | SUCCESS_STATUS
  | SUCCESS_WITH_INFO_STATUS
  | STILL_EXECUTING_STATUS
  | ERROR_STATUS
  | INVALID_HANDLE_STATUS
  deriving DecidableEq, BEq

/-- Modelled from the spec: the application-level status record carried by
every RPC response (generated `inf.TStatus`, not under src/). -/
structure TStatus where
  statusCode : TStatusCode
  deriving DecidableEq

/-- Modelled from the spec: the opaque server-assigned session handle
(generated `inf.TSessionHandle`, not under src/). -/
structure TSessionHandle where
  id : Nat
  deriving DecidableEq

/-- Modelled from the spec: the opaque server-assigned operation handle
(generated `inf.TOperationHandle`, not under src/). -/
structure TOperationHandle where
  id : Nat
  deriving DecidableEq

/-- Modelled from the spec: the open-session request (generated
`inf.TOpenSessionReq`, not under src/) restricted to the fields
connection.go sets: the client protocol version and the optional
username/password pair. -/
structure TOpenSessionReq where
  clientProtocol : Int
  username : Option String
  password : Option String
  deriving DecidableEq

/-- Modelled from the spec: the open-session response `{status,
sessionHandle}` (generated `inf.TOpenSessionResp`, not under src/).
Both fields are pointers in Go, hence `Option`. -/
structure TOpenSessionResp where
  status : Option TStatus
  sessionHandle : Option TSessionHandle
  deriving DecidableEq

/-- Modelled from the spec: the close-session response `{status}`
(generated `inf.TCloseSessionResp`, not under src/). -/
structure TCloseSessionResp where
  status : Option TStatus
  deriving DecidableEq

/-- Modelled from the spec: the execute-statement response `{status,
operationHandle}` (generated `inf.TExecuteStatementResp`, not under src/). -/
structure TExecuteStatementResp where
  status : Option TStatus
  operationHandle : Option TOperationHandle
  deriving DecidableEq

/-- Options for opened Hive sessions (connection.go lines 18-35).
Durations and sizes become `Int`; the `*tls.Config`, `*bool` and
`*thrift.THeaderProtocolID` pointer fields become `Option`s, the TLS
configuration itself being opaque to this layer. -/
structure Options where
  pollIntervalSeconds : Int
  batchSize : Int
  host : String
  port : Int
  username : String
  password : String
  database : String
  maxMessageSize : Int
  maxFrameSize : Int
  connectTimeout : Int
  socketTimeout : Int
  tlsConfig : Option Unit
  tBinaryStrictRead : Option Bool
  tBinaryStrictWrite : Option Bool
  tHeaderProtocolID : Option Int
  deriving DecidableEq

/-- DefaultOptions (connection.go lines 37-44); the remaining fields take
the Go zero values. -/
def DefaultOptions : Options :=
  { pollIntervalSeconds := 5
    batchSize := 10000
    host := ""
    port := 0
    username := ""
    password := ""
    database := ""
    maxMessageSize := 0
    maxFrameSize := 0
    connectTimeout := 5000
    socketTimeout := 5000
    tlsConfig := none
    tBinaryStrictRead := none
    tBinaryStrictWrite := none
    tHeaderProtocolID := none }

/-- The thrift transport configuration built by Connect/ConnectWithUser
(`thrift.TConfiguration`, external; only the fields connection.go sets). -/
structure TConfiguration where
  maxMessageSize : Int
  maxFrameSize : Int
  connectTimeout : Int
  socketTimeout : Int
  tlsConfig : Option Unit
  tBinaryStrictRead : Option Bool
  tBinaryStrictWrite : Option Bool
  tHeaderProtocolID : Option Int
  deriving DecidableEq

/-- A Connection (connection.go lines 46-50): the session handle pointer and
the options. The `thrift` client field is the transport binding, which is
modelled by passing each RPC's outcome explicitly, so it carries no data
here. -/
structure Connection where
  session : Option TSessionHandle
  options : Options
  deriving DecidableEq

/-- The RPC calls a function can issue on the transport binding, recorded as
a trace. -/
inductive RpcCall where
  | openSession (req : TOpenSessionReq)
  | closeSession (handle : TSessionHandle)
  | executeStatement (sessionHandle : Option TSessionHandle) (statement : String)
  deriving DecidableEq

/-- Outcome of an OpenSession RPC as seen by the Go caller: the response
pointer and the error value. -/
structure OpenSessionRpc where
  resp : Option TOpenSessionResp
  err : Option String
  deriving DecidableEq

/-- Outcome of a CloseSession RPC as seen by the Go caller. -/
structure CloseSessionRpc where
  resp : Option TCloseSessionResp
  err : Option String
  deriving DecidableEq

/-- Outcome of an ExecuteStatement RPC as seen by the Go caller. -/
structure ExecuteStatementRpc where
  resp : Option TExecuteStatementResp
  err : Option String
  deriving DecidableEq

/-- Result of Connect/ConnectWithUser: the Connection, or the Go error
returned (transport-open failure or OpenSession RPC error), or a nil-pointer
dereference (`session.SessionHandle` with a nil response). -/
inductive ConnectResult where
  | ok (c : Connection)
  | err (msg : String)
  | panicNilDeref
  deriving DecidableEq

/-- Modelled from the spec: the data captured by `newRowSet(thrift,
operationHandle, options)` (rowset.go, not under src/) — the operation
handle from the execute response and the connection's options; the thrift
client is the shared transport binding. -/
structure RowSet where
  operationHandle : Option TOperationHandle
  options : Options
  deriving DecidableEq

/-- Result of Connection.Query: the RowSet, or the Go error returned, or a
nil-pointer dereference. -/
inductive QueryResult where
  | ok (rs : RowSet)
  | err (msg : String)
  | panicNilDeref
  deriving DecidableEq

/-- Result of Connection.Exec: the raw execute-statement response, or the Go
error returned, or a nil-pointer dereference. -/
inductive ExecResult where
  | ok (resp : TExecuteStatementResp)
  | err (msg : String)
  | panicNilDeref
  deriving DecidableEq

/-- Rendering of a TStatusCode value, standing in for the generated Go
enum's value names. -/
def TStatusCode.render : TStatusCode → String
  | .SUCCESS_STATUS => "SUCCESS_STATUS"
  | .SUCCESS_WITH_INFO_STATUS => "SUCCESS_WITH_INFO_STATUS"
  | .STILL_EXECUTING_STATUS => "STILL_EXECUTING_STATUS"
  | .ERROR_STATUS => "ERROR_STATUS"
  | .INVALID_HANDLE_STATUS => "INVALID_HANDLE_STATUS"

/-- Rendering of `resp.Status.String()` — the server status text used by
Query/Exec in their application-error message. The generated `String()`
method is external; its exact layout is immaterial, only that it is a
function of the status. -/
def TStatus.render (s : TStatus) : String :=
  "TStatus(StatusCode:" ++ s.statusCode.render ++ ")"

/-- Rendering of `%+v` applied to the (possibly nil) execute response
pointer inside the protocol-error message of Query/Exec. -/
def renderExecResp : Option TExecuteStatementResp → String
  | none => "<nil>"
  | some r =>
    "&TExecuteStatementResp(Status:" ++
      (match r.status with
        | none => "<nil>"
        | some s => s.render) ++ ")"

/-- Rendering of `%v` applied to the (possibly nil) close response pointer
inside the error built by Close. -/
def renderCloseResp : Option TCloseSessionResp → String
  | none => "<nil>"
  | some r =>
    "&TCloseSessionResp(Status:" ++
      (match r.status with
        | none => "<nil>"
        | some s => s.render) ++ ")"

/-- isSuccessStatus (connection.go lines 186-189) on a non-nil status: the
code is SUCCESS_STATUS or SUCCESS_WITH_INFO_STATUS. The Go receiver is a
pointer; the nil case (a dereference in `GetStatusCode`) is modelled at
each call site, where a nil status field yields the panic outcome. -/
def isSuccessStatus (p : TStatus) : Bool :=
  p.statusCode == TStatusCode.SUCCESS_STATUS ||
    p.statusCode == TStatusCode.SUCCESS_WITH_INFO_STATUS

/-- The thrift.TConfiguration literal built by Connect
(connection.go lines 53-62). -/
def connectTConfiguration (options : Options) : TConfiguration :=
  { maxMessageSize := options.maxMessageSize
    maxFrameSize := options.maxFrameSize
    connectTimeout := options.connectTimeout
    socketTimeout := options.socketTimeout
    tlsConfig := options.tlsConfig
    tBinaryStrictRead := options.tBinaryStrictRead
    tBinaryStrictWrite := options.tBinaryStrictWrite
    tHeaderProtocolID := options.tHeaderProtocolID }

/-- The open-session request built by Connect (connection.go lines 80-81):
`NewTOpenSessionReq()` with ClientProtocol set to 6 and the credential
pointers left nil. -/
def connectOpenSessionReq : TOpenSessionReq :=
  { clientProtocol := 6
    username := none
    password := none }

/-- The thrift.TConfiguration literal built by ConnectWithUser
(connection.go lines 91-100), duplicated verbatim from Connect in the
source. -/
def connectWithUserTConfiguration (options : Options) : TConfiguration :=
  { maxMessageSize := options.maxMessageSize
    maxFrameSize := options.maxFrameSize
    connectTimeout := options.connectTimeout
    socketTimeout := options.socketTimeout
    tlsConfig := options.tlsConfig
    tBinaryStrictRead := options.tBinaryStrictRead
    tBinaryStrictWrite := options.tBinaryStrictWrite
    tHeaderProtocolID := options.tHeaderProtocolID }

/-- The open-session request built by ConnectWithUser (connection.go lines
117-120): ClientProtocol 6, then Username and Password set to the given
strings. -/
def connectWithUserOpenSessionReq (username password : String) : TOpenSessionReq :=
  { clientProtocol := 6
    username := some username
    password := some password }

/-- Connect (connection.go lines 52-88). `transportErr` is the outcome of
`transport.Open()`; `rpc` the outcome of the OpenSession call. Returns the
RPC trace and the result. On RPC success the code reads
`session.SessionHandle` with no check of the response status or of the
handle, so a nil response panics and an absent handle is wrapped as-is. -/
def Connect (hostPort : String) (options : Options)
    (transportErr : Option String) (rpc : OpenSessionRpc) :
    List RpcCall × ConnectResult :=
  let _tc := connectTConfiguration options
  let _hp := hostPort
  match transportErr with
  | some e => ([], .err e)
  | none =>
    let s := connectOpenSessionReq
    match rpc.err with
    | some e => ([RpcCall.openSession s], .err e)
    | none =>
      match rpc.resp with
      | none => ([RpcCall.openSession s], .panicNilDeref)
      | some session =>
          ([RpcCall.openSession s], .ok ⟨session.sessionHandle, options⟩)

/-- ConnectWithUser (connection.go lines 90-127): the same procedure as
Connect except that the open-session request additionally carries the
username and password. -/
def ConnectWithUser (hostPort username password : String) (options : Options)
    (transportErr : Option String) (rpc : OpenSessionRpc) :
    List RpcCall × ConnectResult :=
  let _tc := connectWithUserTConfiguration options
  let _hp := hostPort
  match transportErr with
  | some e => ([], .err e)
  | none =>
    let s := connectWithUserOpenSessionReq username password
    match rpc.err with
    | some e => ([RpcCall.openSession s], .err e)
    | none =>
      match rpc.resp with
      | none => ([RpcCall.openSession s], .panicNilDeref)
      | some session =>
          ([RpcCall.openSession s], .ok ⟨session.sessionHandle, options⟩)

/-- Connection.isOpen (connection.go lines 129-131). -/
def Connection.isOpen (c : Connection) : Bool :=
  c.session.isSome

/-- The error built by Close when the CloseSession RPC fails:
`fmt.Errorf("Error closing session: ", resp, err)` (connection.go line
141). The format string has no verbs, so per Go's fmt semantics the two
arguments are appended in an `%!(EXTRA ...)` clause; both values appear in
the resulting message. -/
def closeErrMsg (resp : Option TCloseSessionResp) (e : String) : String :=
  "Error closing session: %!(EXTRA *inf.TCloseSessionResp=" ++
    renderCloseResp resp ++ ", error=" ++ e ++ ")"

/-- Connection.Close (connection.go lines 135-148). When the session pointer
is nil this is a no-op returning nil. Otherwise a CloseSession RPC is
issued; on RPC error the error is returned and the session pointer is left
unchanged (the `c.session = nil` line is only reached on RPC success); the
response's application status is never inspected. Returns the RPC trace,
the updated Connection, and the returned error. -/
def Connection.Close (c : Connection) (rpc : CloseSessionRpc) :
    List RpcCall × Connection × Option String :=
  match c.session with
  | none => ([], c, none)
  | some h =>
    match rpc.err with
    | some e => ([RpcCall.closeSession h], c, some (closeErrMsg rpc.resp e))
    | none => ([RpcCall.closeSession h], { c with session := none }, none)

/-- Connection.Query (connection.go lines 152-167). The request is built
from `c.session` with no openness check and the ExecuteStatement RPC is
always issued. On RPC error the error wraps the rendered response; on a
non-success status the server's status text is wrapped; otherwise a RowSet
is built from the response's operation handle. A nil response or a nil
status field is a nil-pointer dereference. Returns the RPC trace and the
result. -/
def Connection.Query (c : Connection) (query : String)
    (rpc : ExecuteStatementRpc) : List RpcCall × QueryResult :=
  let trace := [RpcCall.executeStatement c.session query]
  match rpc.err with
  | some e =>
      (trace, .err ("Error in ExecuteStatement: " ++ renderExecResp rpc.resp ++ ", " ++ e))
  | none =>
    match rpc.resp with
    | none => (trace, .panicNilDeref)
    | some resp =>
      match resp.status with
      | none => (trace, .panicNilDeref)
      | some st =>
        if !isSuccessStatus st then
          (trace, .err ("Error from server: " ++ st.render))
        else
          (trace, .ok ⟨resp.operationHandle, c.options⟩)

/-- Connection.Exec (connection.go lines 169-184): identical to Query except
that on success it returns the raw response instead of constructing a
RowSet. -/
def Connection.Exec (c : Connection) (query : String)
    (rpc : ExecuteStatementRpc) : List RpcCall × ExecResult :=
  let trace := [RpcCall.executeStatement c.session query]
  match rpc.err with
  | some e =>
      (trace, .err ("Error in ExecuteStatement: " ++ renderExecResp rpc.resp ++ ", " ++ e))
  | none =>
    match rpc.resp with
    | none => (trace, .panicNilDeref)
    | some resp =>
      match resp.status with
      | none => (trace, .panicNilDeref)
      | some st =>
        if !isSuccessStatus st then
          (trace, .err ("Error from server: " ++ st.render))
        else
          (trace, .ok resp)

end Hive

namespace Hive

/-- Shared helper: Query always issues exactly one ExecuteStatement RPC,
carrying whatever session pointer the Connection holds. -/
theorem Query_trace (c : Connection) (q : String) (rpc : ExecuteStatementRpc) :
    (Connection.Query c q rpc).1 = [RpcCall.executeStatement c.session q] := by
  obtain ⟨resp, err⟩ := rpc
  cases err with
  | some e => rfl
  | none =>
    cases resp with
    | none => rfl
    | some r =>
      obtain ⟨st, oh⟩ := r
      cases st with
      | none => rfl
      | some s =>
        by_cases hb : isSuccessStatus s <;> simp [Connection.Query, hb]

/-- Shared helper: Exec always issues exactly one ExecuteStatement RPC,
carrying whatever session pointer the Connection holds. -/
theorem Exec_trace (c : Connection) (q : String) (rpc : ExecuteStatementRpc) :
    (Connection.Exec c q rpc).1 = [RpcCall.executeStatement c.session q] := by
  obtain ⟨resp, err⟩ := rpc
  cases err with
  | some e => rfl
  | none =>
    cases resp with
    | none => rfl
    | some r =>
      obtain ⟨st, oh⟩ := r
      cases st with
      | none => rfl
      | some s =>
        by_cases hb : isSuccessStatus s <;> simp [Connection.Exec, hb]

/-- Claim C1: the claim says Query/Exec on a closed Connection fail with a
SessionError and issue no execute-statement RPC. The code has no openness
check: on a Connection whose session is nil, Query and Exec still issue the
ExecuteStatement RPC with a nil session handle, and if the server replies
with a success status, Query even returns a RowSet. -/
theorem C1_closed_connection_still_issues_execute_rpc
    (options : Options) (q : String) (rpc : ExecuteStatementRpc)
    (oh : TOperationHandle) :
    (Connection.Query ⟨none, options⟩ q rpc).1 = [RpcCall.executeStatement none q] ∧
    (Connection.Exec ⟨none, options⟩ q rpc).1 = [RpcCall.executeStatement none q] ∧
    (Connection.Query ⟨none, options⟩ q
        ⟨some ⟨some ⟨TStatusCode.SUCCESS_STATUS⟩, some oh⟩, none⟩).2 =
      QueryResult.ok ⟨some oh, options⟩ :=
  ⟨Query_trace ⟨none, options⟩ q rpc, Exec_trace ⟨none, options⟩ q rpc, rfl⟩

/-- Claim C2 counterexample: on an open Connection whose CloseSession RPC
fails, Close returns the error but does NOT mark the session closed
locally — the session pointer is untouched and the Connection is still
open. -/
theorem C2_counterexample :
    (Connection.Close ⟨some ⟨0⟩, DefaultOptions⟩ ⟨none, some "broken pipe"⟩).2.2 =
      some (closeErrMsg none "broken pipe") ∧
    Connection.isOpen
      (Connection.Close ⟨some ⟨0⟩, DefaultOptions⟩ ⟨none, some "broken pipe"⟩).2.1 = true :=
  ⟨rfl, rfl⟩

/-- Claim C2 amended: when the close-session RPC fails, Close returns an
error and leaves the Connection unchanged (still open, session pointer
intact); the session is marked closed only when the RPC succeeds. -/
theorem C2_close_rpc_failure_leaves_session_open
    (options : Options) (h : TSessionHandle) (resp : Option TCloseSessionResp)
    (e : String) :
    Connection.Close ⟨some h, options⟩ ⟨resp, some e⟩ =
      ([RpcCall.closeSession h], ⟨some h, options⟩, some (closeErrMsg resp e)) :=
  rfl

/-- Claim C3: when the ExecuteStatement RPC succeeds at the transport level
but the response status code is not one of the two success codes, Query and
Exec return an application error carrying the server's status text, and no
RowSet or response object. -/
theorem C3_non_success_status_yields_application_error
    (c : Connection) (q : String) (st : TStatusCode)
    (oh : Option TOperationHandle)
    (h1 : st ≠ TStatusCode.SUCCESS_STATUS)
    (h2 : st ≠ TStatusCode.SUCCESS_WITH_INFO_STATUS) :
    (Connection.Query c q ⟨some ⟨some ⟨st⟩, oh⟩, none⟩).2 =
      QueryResult.err ("Error from server: " ++ TStatus.render ⟨st⟩) ∧
    (Connection.Exec c q ⟨some ⟨some ⟨st⟩, oh⟩, none⟩).2 =
      ExecResult.err ("Error from server: " ++ TStatus.render ⟨st⟩) := by
  have hb : isSuccessStatus ⟨st⟩ = false := by
    cases st
    · exact absurd rfl h1
    · exact absurd rfl h2
    · rfl
    · rfl
    · rfl
  exact ⟨by simp [Connection.Query, hb], by simp [Connection.Exec, hb]⟩

/-- Claim C3 witness at a concrete input: an ERROR_STATUS response. -/
theorem C3_witness :
    (Connection.Query ⟨some ⟨0⟩, DefaultOptions⟩ "SELECT 1"
        ⟨some ⟨some ⟨TStatusCode.ERROR_STATUS⟩, none⟩, none⟩).2 =
      QueryResult.err ("Error from server: " ++ TStatus.render ⟨TStatusCode.ERROR_STATUS⟩) ∧
    (Connection.Exec ⟨some ⟨0⟩, DefaultOptions⟩ "SELECT 1"
        ⟨some ⟨some ⟨TStatusCode.ERROR_STATUS⟩, none⟩, none⟩).2 =
      ExecResult.err ("Error from server: " ++ TStatus.render ⟨TStatusCode.ERROR_STATUS⟩) :=
  C3_non_success_status_yields_application_error ⟨some ⟨0⟩, DefaultOptions⟩
    "SELECT 1" TStatusCode.ERROR_STATUS none (by decide) (by decide)

/-- Claim C4: isSuccessStatus returns true exactly for SUCCESS_STATUS and
SUCCESS_WITH_INFO_STATUS, and false for every other enumerated code. -/
theorem C4_isSuccessStatus_classification (st : TStatusCode) :
    isSuccessStatus ⟨st⟩ = true ↔
      st = TStatusCode.SUCCESS_STATUS ∨ st = TStatusCode.SUCCESS_WITH_INFO_STATUS := by
  cases st <;> decide

/-- Claim C5 counterexample: the open-session RPC succeeds but the reply
carries no session handle; Connect nonetheless returns a Connection (one
whose session pointer is nil) instead of failing with a SessionError. -/
theorem C5_counterexample :
    (Connect "remote:10000" DefaultOptions none
        ⟨some ⟨some ⟨TStatusCode.SUCCESS_STATUS⟩, none⟩, none⟩).2 =
      ConnectResult.ok ⟨none, DefaultOptions⟩ :=
  rfl

/-- Claim C5 amended: Connect performs no validation of a successful
open-session reply; it wraps the reply's (possibly absent) session handle
as-is, so a reply without a handle yields a Connection that is already in
the closed state rather than an error. -/
theorem C5_connect_wraps_missing_handle
    (hp : String) (options : Options) (st : Option TStatus) :
    (Connect hp options none ⟨some ⟨st, none⟩, none⟩).2 =
      ConnectResult.ok ⟨none, options⟩ ∧
    Connection.isOpen ⟨none, options⟩ = false :=
  ⟨rfl, rfl⟩

/-- Claim C6 counterexample: a close-session RPC that succeeds at the
transport level but carries an ERROR_STATUS application status; Close
ignores the status, returns nil error, and marks the session closed — the
non-success code does not make the operation fail. -/
theorem C6_counterexample :
    Connection.Close ⟨some ⟨0⟩, DefaultOptions⟩
        ⟨some ⟨some ⟨TStatusCode.ERROR_STATUS⟩⟩, none⟩ =
      ([RpcCall.closeSession ⟨0⟩], ⟨none, DefaultOptions⟩, none) :=
  rfl

/-- Claim C6 amended: only the execute-statement response is classified
with isSuccessStatus (Query and Exec fail on a non-success code); the
open-session and close-session responses' application status is never
inspected — Connect and Close produce the same outcome for every status
value in the reply. -/
theorem C6_status_classified_only_on_execute :
    (∀ (options : Options) (h : TSessionHandle) (r1 r2 : Option TCloseSessionResp),
      Connection.Close ⟨some h, options⟩ ⟨r1, none⟩ =
        Connection.Close ⟨some h, options⟩ ⟨r2, none⟩) ∧
    (∀ (hp : String) (options : Options) (s1 s2 : Option TStatus)
        (sh : Option TSessionHandle),
      Connect hp options none ⟨some ⟨s1, sh⟩, none⟩ =
        Connect hp options none ⟨some ⟨s2, sh⟩, none⟩) ∧
    (∀ (c : Connection) (q : String) (st : TStatus) (oh : Option TOperationHandle),
      (Connection.Query c q ⟨some ⟨some st, oh⟩, none⟩).2 =
        (if isSuccessStatus st then QueryResult.ok ⟨oh, c.options⟩
         else QueryResult.err ("Error from server: " ++ st.render)) ∧
      (Connection.Exec c q ⟨some ⟨some st, oh⟩, none⟩).2 =
        (if isSuccessStatus st then ExecResult.ok ⟨some st, oh⟩
         else ExecResult.err ("Error from server: " ++ st.render))) := by
  refine ⟨fun _ _ _ _ => rfl, fun _ _ _ _ _ => rfl, fun c q st oh => ⟨?_, ?_⟩⟩ <;>
    by_cases hb : isSuccessStatus st <;>
      simp [Connection.Query, Connection.Exec, hb]

/-- Claim C7: Close on an already-closed Connection is an idempotent no-op:
nil error, no close-session RPC issued, state unchanged. -/
theorem C7_close_idempotent_on_closed (options : Options) (rpc : CloseSessionRpc) :
    Connection.Close ⟨none, options⟩ rpc = ([], ⟨none, options⟩, none) :=
  rfl

/-- Claim C8: the error Close returns on a failed close-session RPC
contains both the rendered RPC response and the underlying error text; the
verb-less format string appends both operands in fmt's EXTRA clause, so the
information is present in the message. -/
theorem C8_close_error_carries_resp_and_err
    (options : Options) (h : TSessionHandle) (resp : Option TCloseSessionResp)
    (e : String) :
    (Connection.Close ⟨some h, options⟩ ⟨resp, some e⟩).2.2 =
      some ("Error closing session: %!(EXTRA *inf.TCloseSessionResp=" ++
        renderCloseResp resp ++ ", error=" ++ e ++ ")") :=
  rfl

/-- Claim C9: ConnectWithUser builds the identical transport configuration,
sets the same fixed client protocol version 6 on the open-session request,
and differs from Connect only in populating the username and password
fields; its result coincides with Connect's on every transport and RPC
outcome. -/
theorem C9_connectWithUser_refines_connect
    (hp u p : String) (options : Options) (te : Option String)
    (rpc : OpenSessionRpc) :
    connectWithUserTConfiguration options = connectTConfiguration options ∧
    (connectWithUserOpenSessionReq u p).clientProtocol = 6 ∧
    connectOpenSessionReq.clientProtocol = 6 ∧
    { connectWithUserOpenSessionReq u p with
        username := none, password := none } = connectOpenSessionReq ∧
    (ConnectWithUser hp u p options te rpc).2 = (Connect hp options te rpc).2 := by
  refine ⟨rfl, rfl, rfl, rfl, ?_⟩
  obtain ⟨resp, err⟩ := rpc
  cases te with
  | some e => rfl
  | none =>
    cases err with
    | some e => rfl
    | none => cases resp <;> rfl

/-- Claim C10: a transport-successful execute-statement response whose
Status pointer is nil makes the status-classification branch of Query and
Exec dereference nil (a panic, not a returned error); any response with a
non-nil status is classified without panicking. -/
theorem C10_nil_status_panics
    (c : Connection) (q : String) (oh : Option TOperationHandle) :
    (Connection.Query c q ⟨some ⟨none, oh⟩, none⟩).2 = QueryResult.panicNilDeref ∧
    (Connection.Exec c q ⟨some ⟨none, oh⟩, none⟩).2 = ExecResult.panicNilDeref ∧
    (∀ st : TStatus,
      (Connection.Query c q ⟨some ⟨some st, oh⟩, none⟩).2 ≠ QueryResult.panicNilDeref) := by
  refine ⟨rfl, rfl, fun st => ?_⟩
  by_cases hb : isSuccessStatus st <;> simp [Connection.Query, hb]

end Hive
